import Mathlib

/-!
Shallow embedding of the AI recommendation/chat generation engine of the
`ai-med-assistant` backend (`app/services/ai_agent_service.py` together with
the entity model `app/models/ai_recommendation.py` and the lab-result status
enum of `app/models/lab_result.py`).

The embedding models:
* JSON values and the behaviour of Python's `json.loads` / `json.dumps`
  (a fueled recursive-descent parser and a serializer);
* the regex span extraction `re.search(r'\x7b[\s\S]*\x7d', text)` used by
  `_parse_and_store_recommendations` (first opening brace to last closing
  brace);
* the entity `AIRecommendation` and the enums `RecommendationType`,
  `Priority`, `ResultStatus`;
* the service operations `generate_recommendations`,
  `_parse_and_store_recommendations`, `_generate_rule_based_recommendations`,
  `acknowledge_recommendation`, `dismiss_recommendation` and `chat`, with the
  database modelled as explicit state and the network providers modelled as a
  parameter carrying the provider's already-computed result (the provider
  call itself is external I/O).

Python exceptions that the service code does not catch (`AttributeError`,
`TypeError` from iterating / attribute access on non-dict JSON values) are
modelled with `Except PyErr`; the `except json.JSONDecodeError` handler is
modelled by the parser returning `Option`.
-/

namespace MedAssist

/-- JSON values as produced by `json.loads`.  Numbers are kept exactly as
`mantissa * 10 ^ exp10` (covering both Python ints and decimal floats). -/
inductive Json where
  | null : Json
  | bool (b : Bool) : Json
  | num (mantissa : Int) (exp10 : Int) : Json
  | str (s : String) : Json
  | arr (xs : List Json) : Json
  | obj (kvs : List (String × Json)) : Json

/-- Python `dict.get(key, default)` on the dict built by `json.loads` from an
object: with duplicate keys the LAST occurrence wins (Python keeps the last
value for a repeated key). -/
def pyDictGet (kvs : List (String × Json)) (key : String) (dflt : Json) : Json :=
  match kvs.reverse.find? (fun kv => kv.1 == key) with
  | some kv => kv.2
  | none => dflt

/-- Keys of the Python dict built from a JSON object, in first-occurrence
order (how `for k in d` iterates). -/
def pyDictKeys (kvs : List (String × Json)) : List String :=
  (kvs.map (fun kv => kv.1)).eraseDups

/-- Python `value == "literal"` where `value` came out of `json.loads`:
true exactly for the equal JSON string. -/
def jsonEqStr (j : Json) (s : String) : Bool :=
  match j with
  | .str t => t == s
  | _ => false

/-! JSON parsing (`json.loads`): a fueled recursive-descent parser.  A
`none` result models `json.JSONDecodeError`. -/

def isJsonWs (c : Char) : Bool :=
  c = ' ' || c = '\t' || c = '\n' || c = '\r'

def skipWs : List Char → List Char
  | [] => []
  | c :: cs => if isJsonWs c then skipWs cs else c :: cs

def hexVal (c : Char) : Option Nat :=
  if '0' ≤ c && c ≤ '9' then some (c.toNat - 48)
  else if 'a' ≤ c && c ≤ 'f' then some (c.toNat - 87)
  else if 'A' ≤ c && c ≤ 'F' then some (c.toNat - 55)
  else none

/-- Parse the body of a JSON string (after the opening quote), returning the
decoded characters and the rest of the input. -/
def parseStringChars : Nat → List Char → Option (List Char × List Char)
  | 0, _ => none
  | _, [] => none
  | Nat.succ fuel, c :: cs =>
    if c = '"' then some ([], cs)
    else if c = '\\' then
      match cs with
      | [] => none
      | e :: cs' =>
        if e = '"' then (parseStringChars fuel cs').map (fun p => ('"' :: p.1, p.2))
        else if e = '\\' then (parseStringChars fuel cs').map (fun p => ('\\' :: p.1, p.2))
        else if e = '/' then (parseStringChars fuel cs').map (fun p => ('/' :: p.1, p.2))
        else if e = 'b' then (parseStringChars fuel cs').map (fun p => (Char.ofNat 8 :: p.1, p.2))
        else if e = 'f' then (parseStringChars fuel cs').map (fun p => (Char.ofNat 12 :: p.1, p.2))
        else if e = 'n' then (parseStringChars fuel cs').map (fun p => ('\n' :: p.1, p.2))
        else if e = 'r' then (parseStringChars fuel cs').map (fun p => ('\r' :: p.1, p.2))
        else if e = 't' then (parseStringChars fuel cs').map (fun p => ('\t' :: p.1, p.2))
        else if e = 'u' then
          match cs' with
          | h1 :: h2 :: h3 :: h4 :: cs'' =>
            match hexVal h1, hexVal h2, hexVal h3, hexVal h4 with
            | some a, some b, some c2, some d =>
              (parseStringChars fuel cs'').map
                (fun p => (Char.ofNat (a * 4096 + b * 256 + c2 * 16 + d) :: p.1, p.2))
            | _, _, _, _ => none
          | _ => none
        else none
    else (parseStringChars fuel cs).map (fun p => (c :: p.1, p.2))

def takeDigits : List Char → (List Char × List Char)
  | [] => ([], [])
  | c :: cs =>
    if '0' ≤ c && c ≤ '9' then
      let p := takeDigits cs
      (c :: p.1, p.2)
    else ([], c :: cs)

def digitsToNat (ds : List Char) : Nat :=
  ds.foldl (fun a c => a * 10 + (c.toNat - 48)) 0

/-- Parse a JSON number token: `-?digits(.digits)?((e|E)(+|-)?digits)?`. -/
def parseNumber (cs : List Char) : Option (Json × List Char) :=
  let (neg, cs1) :=
    match cs with
    | '-' :: rest => (true, rest)
    | _ => (false, cs)
  let (intDs, cs2) := takeDigits cs1
  if intDs.isEmpty then none
  else
    let (fracDs, cs3) :=
      match cs2 with
      | '.' :: rest =>
        let p := takeDigits rest
        if p.1.isEmpty then ([], cs2) else (p.1, p.2)
      | _ => ([], cs2)
    let (expOk, expVal, cs4) :=
      match cs3 with
      | 'e' :: rest =>
        match rest with
        | '+' :: r2 => let p := takeDigits r2
                       if p.1.isEmpty then (false, (0 : Int), cs3)
                       else (true, (digitsToNat p.1 : Int), p.2)
        | '-' :: r2 => let p := takeDigits r2
                       if p.1.isEmpty then (false, (0 : Int), cs3)
                       else (true, -(digitsToNat p.1 : Int), p.2)
        | _ => let p := takeDigits rest
               if p.1.isEmpty then (false, (0 : Int), cs3)
               else (true, (digitsToNat p.1 : Int), p.2)
      | 'E' :: rest =>
        match rest with
        | '+' :: r2 => let p := takeDigits r2
                       if p.1.isEmpty then (false, (0 : Int), cs3)
                       else (true, (digitsToNat p.1 : Int), p.2)
        | '-' :: r2 => let p := takeDigits r2
                       if p.1.isEmpty then (false, (0 : Int), cs3)
                       else (true, -(digitsToNat p.1 : Int), p.2)
        | _ => let p := takeDigits rest
               if p.1.isEmpty then (false, (0 : Int), cs3)
               else (true, (digitsToNat p.1 : Int), p.2)
      | _ => (false, (0 : Int), cs3)
    let mant : Int := digitsToNat (intDs ++ fracDs)
    let mant : Int := if neg then -mant else mant
    let e10 : Int := (if expOk then expVal else 0) - (fracDs.length : Int)
    some (Json.num mant e10, cs4)

mutual

/-- One JSON value, leading whitespace allowed. -/
def parseValue : Nat → List Char → Option (Json × List Char)
  | 0, _ => none
  | Nat.succ fuel, cs =>
    match skipWs cs with
    | [] => none
    | c :: rest =>
      if c = '"' then
        (parseStringChars (Nat.succ fuel) rest).map (fun p => (Json.str (String.mk p.1), p.2))
      else if c = '\x7b' then
        match skipWs rest with
        | '\x7d' :: rest' => some (Json.obj [], rest')
        | other => (parseObjItems fuel other).map (fun p => (Json.obj p.1, p.2))
      else if c = '[' then
        match skipWs rest with
        | ']' :: rest' => some (Json.arr [], rest')
        | other => (parseArrItems fuel other).map (fun p => (Json.arr p.1, p.2))
      else if c = 't' then
        match rest with
        | 'r' :: 'u' :: 'e' :: rest' => some (Json.bool true, rest')
        | _ => none
      else if c = 'f' then
        match rest with
        | 'a' :: 'l' :: 's' :: 'e' :: rest' => some (Json.bool false, rest')
        | _ => none
      else if c = 'n' then
        match rest with
        | 'u' :: 'l' :: 'l' :: rest' => some (Json.null, rest')
        | _ => none
      else parseNumber (c :: rest)

/-- Comma-separated array items up to the closing bracket. -/
def parseArrItems : Nat → List Char → Option (List Json × List Char)
  | 0, _ => none
  | Nat.succ fuel, cs =>
    match parseValue fuel cs with
    | none => none
    | some (v, rest) =>
      match skipWs rest with
      | ',' :: rest' =>
        (parseArrItems fuel rest').map (fun p => (v :: p.1, p.2))
      | ']' :: rest' => some ([v], rest')
      | _ => none

/-- Comma-separated `"key": value` pairs up to the closing brace. -/
def parseObjItems : Nat → List Char → Option (List (String × Json) × List Char)
  | 0, _ => none
  | Nat.succ fuel, cs =>
    match skipWs cs with
    | '"' :: rest =>
      match parseStringChars (Nat.succ fuel) rest with
      | none => none
      | some (keyChars, rest1) =>
        match skipWs rest1 with
        | ':' :: rest2 =>
          match parseValue fuel rest2 with
          | none => none
          | some (v, rest3) =>
            match skipWs rest3 with
            | ',' :: rest4 =>
              (parseObjItems fuel rest4).map
                (fun p => ((String.mk keyChars, v) :: p.1, p.2))
            | '\x7d' :: rest4 => some ([(String.mk keyChars, v)], rest4)
            | _ => none
        | _ => none
    | _ => none

end

/-- Model of Python `json.loads`: parse the whole string as one JSON
document; `none` models `json.JSONDecodeError`. -/
def jsonLoads (s : String) : Option Json :=
  match parseValue (2 * s.length + 2) s.data with
  | some (v, rest) => if (skipWs rest).isEmpty then some v else none
  | none => none

/-! JSON serialization (`json.dumps` with its defaults: `ensure_ascii=True`,
separators `", "` and `": "`). -/

def hexDigit (n : Nat) : Char :=
  if n < 10 then Char.ofNat (48 + n) else Char.ofNat (87 + (n - 10))

/-- Escape one character the way `json.dumps` does: printable ASCII other
than quote and backslash is kept, everything else becomes an escape. -/
def escapeChar (c : Char) : List Char :=
  if c = '"' then ['\\', '"']
  else if c = '\\' then ['\\', '\\']
  else if c = '\n' then ['\\', 'n']
  else if c = '\r' then ['\\', 'r']
  else if c = '\t' then ['\\', 't']
  else if c.toNat = 8 then ['\\', 'b']
  else if c.toNat = 12 then ['\\', 'f']
  else if 32 ≤ c.toNat && c.toNat ≤ 126 then [c]
  else
    let n := c.toNat % 65536
    ['\\', 'u', hexDigit (n / 4096), hexDigit (n / 256 % 16), hexDigit (n / 16 % 16), hexDigit (n % 16)]

def escapeString (s : String) : String :=
  String.mk (s.data.flatMap escapeChar)

/-- Render a JSON number; integers print like Python ints (the decimal-float
rendering is approximated with exponent notation, which no claim relies
on). -/
def dumpNum (mantissa : Int) (exp10 : Int) : String :=
  if exp10 = 0 then toString mantissa
  else toString mantissa ++ "e" ++ toString exp10

mutual

/-- Model of Python `json.dumps` with default options. -/
def jsonDumps : Json → String
  | .null => "null"
  | .bool true => "true"
  | .bool false => "false"
  | .num m e => dumpNum m e
  | .str s => "\"" ++ escapeString s ++ "\""
  | .arr xs => "[" ++ jsonDumpsArr xs ++ "]"
  | .obj kvs => "\x7b" ++ jsonDumpsObj kvs ++ "\x7d"

def jsonDumpsArr : List Json → String
  | [] => ""
  | [x] => jsonDumps x
  | x :: y :: rest => jsonDumps x ++ ", " ++ jsonDumpsArr (y :: rest)

def jsonDumpsObj : List (String × Json) → String
  | [] => ""
  | [kv] => "\"" ++ escapeString kv.1 ++ "\": " ++ jsonDumps kv.2
  | kv :: kv2 :: rest =>
    "\"" ++ escapeString kv.1 ++ "\": " ++ jsonDumps kv.2 ++ ", " ++ jsonDumpsObj (kv2 :: rest)

end

/-! Span extraction: `re.search(r'\x7b[\s\S]*\x7d', response_text)`.  The
regex matches from the FIRST opening brace to the LAST closing brace, and
matches at all exactly when some closing brace occurs after some opening
brace. -/

/-- Index of the first occurrence of `c`, if any. -/
def firstIdx (cs : List Char) (c : Char) : Option Nat :=
  cs.findIdx? (fun x => x = c)

/-- Index of the last occurrence of `c`, if any. -/
def lastIdx (cs : List Char) (c : Char) : Option Nat :=
  match (cs.reverse.findIdx? (fun x => x = c)) with
  | some k => some (cs.length - 1 - k)
  | none => none

/-- The span matched by `re.search(r'\x7b[\s\S]*\x7d', s)`: from the first
`\x7b` to the last `\x7d` when the latter comes after the former, else no
match. -/
def extractJsonSpan (s : String) : Option String :=
  let cs := s.data
  match firstIdx cs '\x7b', lastIdx cs '\x7d' with
  | some i, some j =>
    if i < j then some (String.mk ((cs.drop i).take (j - i + 1))) else none
  | _, _ => none

/-! Entity model (`app/models/ai_recommendation.py`,
`app/models/lab_result.py`, `app/models/family.py`).  Timestamps are
modelled as natural-number ticks; the float column `confidence_score` is
modelled over `Rat`.  Text columns that receive arbitrary Python values from
`rec_data.get(...)` are modelled as `Json` (the service assigns the parsed
JSON value unconverted). -/

/-- `RecommendationType` enum. -/
inductive RecommendationType where
  | SUPPLEMENT
  | DIETARY
  | LIFESTYLE
  | MEDICATION_INTERACTION
  | LAB_FOLLOWUP
  | GENERAL_HEALTH
deriving DecidableEq

/-- `Priority` enum. -/
inductive Priority where
  | HIGH
  | MEDIUM
  | LOW
  | INFORMATIONAL
deriving DecidableEq

/-- `ResultStatus` enum from the lab-result model. -/
inductive ResultStatus where
  | NORMAL
  | LOW
  | HIGH
  | CRITICAL_LOW
  | CRITICAL_HIGH
  | ABNORMAL
  | PENDING
deriving DecidableEq

/-- Column default for `AIRecommendation.disclaimer`. -/
def defaultDisclaimer : String :=
  "This is an AI-generated suggestion. Please consult with your healthcare provider before making any changes to your diet, supplements, or medications."

/-- The persisted `AIRecommendation` row. -/
structure AIRecommendation where
  id : Nat
  family_member_id : Nat
  recommendation_type : RecommendationType
  priority : Priority
  title : Json
  description : Json
  detailed_explanation : Json
  supplement_name : Json
  suggested_dosage : Json
  frequency : Option String
  foods_to_include : String
  foods_to_avoid : String
  triggered_by_lab_id : Option Nat
  triggered_by_medication_id : Option Nat
  model_used : Option String
  confidence_score : Option Rat
  is_active : Bool
  is_acknowledged : Bool
  acknowledged_at : Option Nat
  user_rating : Option Int
  user_feedback : Option String
  is_followed : Option Bool
  disclaimer : String
  created_at : Nat
  updated_at : Nat
  expires_at : Option Nat

/-- The `LabResult` row (the columns the engine reads). -/
structure LabResult where
  id : Nat
  family_member_id : Nat
  test_name : String
  status : ResultStatus
  test_date : Nat
deriving DecidableEq

/-- The `FamilyMember` row (the columns the engine reads). -/
structure FamilyMember where
  id : Nat
  user_id : Nat
deriving DecidableEq

/-- The database state the engine touches. -/
structure DB where
  family_members : List FamilyMember
  lab_results : List LabResult
  recommendations : List AIRecommendation

/-! Python-exception model for the code paths the service does NOT guard:
`rec_data.get` on a non-dict raises `AttributeError`, `for x in v` on a
non-iterable raises `TypeError`; neither is caught by the
`except json.JSONDecodeError` handler in `_parse_and_store_recommendations`. -/

inductive PyErr where
  | attributeError (msg : String)
  | typeError (msg : String)
deriving DecidableEq

/-- `v.get(key, default)` for an arbitrary value coming out of JSON:
only dicts carry `.get`. -/
def pyAttrGet (v : Json) (key : String) (dflt : Json) : Except PyErr Json :=
  match v with
  | .obj kvs => .ok (pyDictGet kvs key dflt)
  | _ => .error (.attributeError "object has no attribute get")

/-- `for x in v`: lists iterate elements, strings iterate one-character
strings, dicts iterate keys; everything else raises `TypeError`. -/
def pyIterate (v : Json) : Except PyErr (List Json) :=
  match v with
  | .arr xs => .ok xs
  | .str s => .ok (s.data.map (fun c => Json.str (String.mk [c])))
  | .obj kvs => .ok ((pyDictKeys kvs).map Json.str)
  | _ => .error (.typeError "object is not iterable")

/-! Provider results.  Both `LLMProvider.generate_recommendation`
implementations return either a dict with keys `response`/`model`/
`confidence` or a dict with key `error`; the actual network call is external
I/O, so the service operations are parameterised by the returned value. -/

/-- The success dict `\x7b"response", "model", "confidence"\x7d` a provider
returns. -/
structure ModelResponse where
  response : String
  model : String
  confidence : Rat

/-- Result of `self.llm_provider.generate_recommendation(prompt, context)`:
either the success dict or an `\x7b"error": ...\x7d` dict
(`ProviderUnavailable`). -/
inductive LLMResult where
  | success (resp : ModelResponse)
  | error (msg : String)

/-! `_parse_and_store_recommendations` (`ai_agent_service.py` lines 379-437). -/

/-- The per-item entity construction inside the `for rec_data in rec_list`
loop, given that `rec_data` is a dict `kvs` (lines 397-423).  `newId` and
`now` stand for the primary key and `created_at` the database assigns at
flush time. -/
def buildRecommendation (newId : Nat) (now : Nat) (family_member_id : Nat)
    (model : Option String) (confidence : Option Rat)
    (kvs : List (String × Json)) : AIRecommendation :=
  let rec_type :=
    if jsonEqStr (pyDictGet kvs "type" Json.null) "dietary" then RecommendationType.DIETARY
    else if jsonEqStr (pyDictGet kvs "type" Json.null) "lifestyle" then RecommendationType.LIFESTYLE
    else RecommendationType.SUPPLEMENT
  let priority :=
    if jsonEqStr (pyDictGet kvs "priority" Json.null) "high" then Priority.HIGH
    else if jsonEqStr (pyDictGet kvs "priority" Json.null) "low" then Priority.LOW
    else Priority.MEDIUM
  { id := newId
    family_member_id := family_member_id
    recommendation_type := rec_type
    priority := priority
    title := pyDictGet kvs "title" (Json.str "Health Recommendation")
    description := pyDictGet kvs "description" (Json.str "")
    detailed_explanation := pyDictGet kvs "reasoning" (Json.str "")
    supplement_name := pyDictGet kvs "supplement_name" Json.null
    suggested_dosage := pyDictGet kvs "dosage" Json.null
    frequency := none
    foods_to_include := jsonDumps (pyDictGet kvs "foods_to_include" (Json.arr []))
    foods_to_avoid := jsonDumps (pyDictGet kvs "foods_to_avoid" (Json.arr []))
    triggered_by_lab_id := none
    triggered_by_medication_id := none
    model_used := model
    confidence_score := confidence
    is_active := true
    is_acknowledged := false
    acknowledged_at := none
    user_rating := none
    user_feedback := none
    is_followed := none
    disclaimer := defaultDisclaimer
    created_at := now
    updated_at := now
    expires_at := none }

/-- One iteration of the item loop: the first `rec_data.get` call raises
`AttributeError` when `rec_data` is not a dict. -/
def buildFromItem (newId : Nat) (now : Nat) (family_member_id : Nat)
    (model : Option String) (confidence : Option Rat)
    (item : Json) : Except PyErr AIRecommendation :=
  match item with
  | .obj kvs => .ok (buildRecommendation newId now family_member_id model confidence kvs)
  | _ => .error (.attributeError "object has no attribute get")

/-- Build every item of the list, numbering ids consecutively from
`nextId`. -/
def buildItems (nextId : Nat) (now : Nat) (family_member_id : Nat)
    (model : Option String) (confidence : Option Rat) :
    List Json → Except PyErr (List AIRecommendation)
  | [] => .ok []
  | item :: rest => do
    let r ← buildFromItem nextId now family_member_id model confidence item
    let rs ← buildItems (nextId + 1) now family_member_id model confidence rest
    .ok (r :: rs)

/-- `_parse_and_store_recommendations`: extract the brace span, parse it as
JSON (`json.JSONDecodeError` is caught and yields `[]`), read the
`recommendations` entry (default `[]`), and build one entity per item with
`model_used` / `confidence_score` taken from the call's provider response.
The stored list is returned; uncaught Python errors surface as `.error`. -/
def parse_and_store_recommendations (nextId : Nat) (now : Nat)
    (family_member_id : Nat) (llm_response : ModelResponse) :
    Except PyErr (List AIRecommendation) :=
  match extractJsonSpan llm_response.response with
  | none => .ok []
  | some span =>
    match jsonLoads span with
    | none => .ok []
    | some parsed => do
      let recListJson ← pyAttrGet parsed "recommendations" (Json.arr [])
      let items ← pyIterate recListJson
      buildItems nextId now family_member_id (some llm_response.model)
        (some llm_response.confidence) items

/-! `_generate_rule_based_recommendations` (`ai_agent_service.py`
lines 439-547). -/

/-- One entry of the `deficiency_rules` dict (declaration order is the
iteration order of `deficiency_rules.items()`). -/
structure Rule where
  keyword : String
  rtype : RecommendationType
  priority : Priority
  title : String
  description : String
  supplement_name : Option String
  dosage : Option String
  foods_to_include : List String
  foods_to_avoid : List String

/-- The `deficiency_rules` table in declared order (lines 455-516). -/
def deficiency_rules : List Rule :=
  [ { keyword := "vitamin b12"
      rtype := RecommendationType.SUPPLEMENT
      priority := Priority.HIGH
      title := "Vitamin B12 Supplementation Recommended"
      description := "Your B12 levels are below the normal range. Consider B12 supplementation."
      supplement_name := some "Vitamin B12 (Methylcobalamin)"
      dosage := some "1000-2000 mcg daily"
      foods_to_include := ["beef liver", "clams", "fish", "fortified cereals", "eggs", "dairy"]
      foods_to_avoid := [] }
  , { keyword := "vitamin d"
      rtype := RecommendationType.SUPPLEMENT
      priority := Priority.HIGH
      title := "Vitamin D Supplementation Recommended"
      description := "Your Vitamin D levels are low. Consider supplementation and sun exposure."
      supplement_name := some "Vitamin D3"
      dosage := some "1000-4000 IU daily"
      foods_to_include := ["fatty fish", "fortified milk", "egg yolks", "mushrooms"]
      foods_to_avoid := [] }
  , { keyword := "iron"
      rtype := RecommendationType.SUPPLEMENT
      priority := Priority.HIGH
      title := "Iron Supplementation May Be Needed"
      description := "Your iron levels are below normal. Consider iron-rich foods and possible supplementation."
      supplement_name := some "Iron (Ferrous Sulfate)"
      dosage := some "18-27 mg daily with Vitamin C"
      foods_to_include := ["red meat", "spinach", "lentils", "fortified cereals", "beans"]
      foods_to_avoid := ["coffee and tea with meals", "calcium-rich foods with iron supplements"] }
  , { keyword := "hemoglobin"
      rtype := RecommendationType.DIETARY
      priority := Priority.HIGH
      title := "Dietary Changes for Hemoglobin"
      description := "Low hemoglobin may indicate anemia. Focus on iron and B12 rich foods."
      supplement_name := none
      dosage := none
      foods_to_include := ["red meat", "dark leafy greens", "beans", "fortified cereals"]
      foods_to_avoid := [] }
  , { keyword := "glucose"
      rtype := RecommendationType.DIETARY
      priority := Priority.HIGH
      title := "Blood Sugar Management"
      description := "Your glucose levels need attention. Consider dietary modifications."
      supplement_name := none
      dosage := none
      foods_to_include := ["whole grains", "vegetables", "lean proteins", "legumes"]
      foods_to_avoid := ["sugary drinks", "white bread", "processed foods", "candy"] }
  , { keyword := "cholesterol"
      rtype := RecommendationType.DIETARY
      priority := Priority.MEDIUM
      title := "Heart-Healthy Diet Recommended"
      description := "Your cholesterol levels are elevated. Consider heart-healthy dietary changes."
      supplement_name := some "Omega-3 Fish Oil"
      dosage := some "1000-2000 mg daily"
      foods_to_include := ["fatty fish", "nuts", "olive oil", "oats", "beans"]
      foods_to_avoid := ["fried foods", "red meat", "full-fat dairy", "processed meats"] } ]

/-- Does the first list occur as a prefix-at-some-position of the second? -/
def listInfixOf (needle : List Char) : List Char → Bool
  | [] => needle.isEmpty
  | c :: cs => needle.isPrefixOf (c :: cs) || listInfixOf needle cs

/-- Python `needle in haystack` on strings: contiguous-substring test. -/
def strContainsSub (hay needle : String) : Bool :=
  listInfixOf needle.data hay.data

/-- ASCII lowercasing of one character (what `str.lower()` does on the
ASCII test names involved here). -/
def pyLowerChar (c : Char) : Char :=
  if 'A' ≤ c && c ≤ 'Z' then Char.ofNat (c.toNat + 32) else c

/-- Model of `test_name.lower()`. -/
def pyLower (s : String) : String :=
  String.mk (s.data.map pyLowerChar)

/-- The guard of line 522:
`keyword in test_name_lower and lab.status == ResultStatus.LOW`. -/
def ruleMatches (lab : LabResult) (r : Rule) : Bool :=
  strContainsSub (pyLower lab.test_name) r.keyword && lab.status == ResultStatus.LOW

/-- The entity built when a rule fires (lines 523-536). -/
def mkRuleRecommendation (newId : Nat) (now : Nat) (family_member_id : Nat)
    (lab : LabResult) (r : Rule) : AIRecommendation :=
  { id := newId
    family_member_id := family_member_id
    recommendation_type := r.rtype
    priority := r.priority
    title := Json.str r.title
    description := Json.str r.description
    detailed_explanation := Json.null
    supplement_name := match r.supplement_name with
                       | some s => Json.str s
                       | none => Json.null
    suggested_dosage := match r.dosage with
                        | some s => Json.str s
                        | none => Json.null
    frequency := none
    foods_to_include := jsonDumps (Json.arr (r.foods_to_include.map Json.str))
    foods_to_avoid := jsonDumps (Json.arr (r.foods_to_avoid.map Json.str))
    triggered_by_lab_id := some lab.id
    triggered_by_medication_id := none
    model_used := some "rule_based"
    confidence_score := some (9 / 10)
    is_active := true
    is_acknowledged := false
    acknowledged_at := none
    user_rating := none
    user_feedback := none
    is_followed := none
    disclaimer := defaultDisclaimer
    created_at := now
    updated_at := now
    expires_at := none }

/-- The inner keyword loop for one lab (lines 521-540): rules are tested in
declared table order, appending the entity for the first match and then
`break`-ing out, so a lab yields at most one entity. -/
def ruleRecommendationForLab (newId : Nat) (now : Nat) (family_member_id : Nat)
    (lab : LabResult) : Option AIRecommendation :=
  (deficiency_rules.find? (ruleMatches lab)).map
    (mkRuleRecommendation newId now family_member_id lab)

/-- The status filter of the fallback's lab query (lines 446-451):
`LabResult.status.in_([ResultStatus.LOW, ResultStatus.HIGH])`. -/
def abnormalStatusFilter (lab : LabResult) : Bool :=
  lab.status == ResultStatus.LOW || lab.status == ResultStatus.HIGH

/-- Insert keeping the list sorted by `test_date` descending. -/
def insertByDateDesc (l : LabResult) : List LabResult → List LabResult
  | [] => [l]
  | x :: xs =>
    if l.test_date ≤ x.test_date then x :: insertByDateDesc l xs
    else l :: x :: xs

/-- `order_by(LabResult.test_date.desc())`. -/
def sortByDateDesc : List LabResult → List LabResult
  | [] => []
  | x :: xs => insertByDateDesc x (sortByDateDesc xs)

/-- The fallback's lab query: the subject's labs with status LOW or HIGH,
most recent first. -/
def abnormalLabsQuery (db : DB) (family_member_id : Nat) : List LabResult :=
  sortByDateDesc (db.lab_results.filter
    (fun l => l.family_member_id == family_member_id && abnormalStatusFilter l))

/-- Process the queried labs in order, one inner keyword loop each. -/
def ruleRecsForLabs (nextId : Nat) (now : Nat) (family_member_id : Nat) :
    List LabResult → List AIRecommendation
  | [] => []
  | lab :: rest =>
    match ruleRecommendationForLab nextId now family_member_id lab with
    | some r => r :: ruleRecsForLabs (nextId + 1) now family_member_id rest
    | none => ruleRecsForLabs nextId now family_member_id rest

/-- `_generate_rule_based_recommendations`: query the abnormal labs, run the
rule table over each, return the created entities.  It emits no audit
event. -/
def generate_rule_based_recommendations (nextId : Nat) (now : Nat)
    (db : DB) (family_member_id : Nat) : List AIRecommendation :=
  ruleRecsForLabs nextId now family_member_id (abnormalLabsQuery db family_member_id)

/-! Audit events (`log_audit_event` calls made by the service). -/

/-- The arguments the service passes to `log_audit_event`. -/
structure AuditEvent where
  event_type : String
  user_id : Nat
  resource_type : String
  resource_id : Option Nat
  action : String
  details_family_member_id : Option Nat
  details_model : Option String
  details_count : Option Nat
  details_has_image : Option Bool
deriving DecidableEq

/-- The audit event `generate_recommendations` logs on the LLM-success path
(lines 365-375). -/
def genAuditEvent (user_id family_member_id : Nat) (model : String)
    (count : Nat) : AuditEvent :=
  { event_type := "PHI_ACCESS"
    user_id := user_id
    resource_type := "ai_recommendation"
    resource_id := none
    action := "generate_recommendations"
    details_family_member_id := some family_member_id
    details_model := some model
    details_count := some count
    details_has_image := none }

/-- The audit event `acknowledge_recommendation` logs (lines 604-610). -/
def ackAuditEvent (user_id recommendation_id : Nat) : AuditEvent :=
  { event_type := "PHI_UPDATE"
    user_id := user_id
    resource_type := "ai_recommendation"
    resource_id := some recommendation_id
    action := "acknowledge_recommendation"
    details_family_member_id := none
    details_model := none
    details_count := none
    details_has_image := none }

/-- The audit event `chat` logs (lines 660-670); `model` is
`result.get("model", "unknown")`. -/
def chatAuditEvent (user_id family_member_id : Nat) (has_image : Bool)
    (model : String) : AuditEvent :=
  { event_type := "PHI_ACCESS"
    user_id := user_id
    resource_type := "ai_chat"
    resource_id := none
    action := "chat_interaction"
    details_family_member_id := some family_member_id
    details_model := some model
    details_count := none
    details_has_image := some has_image }

/-! Service operations. -/

/-- `_verify_family_member_access`: the family member with the given id and
owner, if any. -/
def verify_family_member_access (db : DB) (user_id family_member_id : Nat) :
    Option FamilyMember :=
  db.family_members.find?
    (fun m => m.id == family_member_id && m.user_id == user_id)

/-- What a `generate_recommendations` call produces: the returned list, the
database after the inserts, and the audit events emitted. -/
structure GenerateOutcome where
  recommendations : List AIRecommendation
  db : DB
  audit_events : List AuditEvent

/-- Append freshly created rows to the store (the `db.add`/`flush` batch). -/
def insertRecommendations (db : DB) (recs : List AIRecommendation) : DB :=
  { db with recommendations := db.recommendations ++ recs }

/-- `generate_recommendations` (lines 325-377): ownership check (empty list
when it fails), provider call (modelled by the `llm` parameter), rule-based
fallback on an `error` result, otherwise parse-and-store followed by ONE
audit event recording the model and the produced count. -/
def generate_recommendations (nextId : Nat) (now : Nat) (db : DB)
    (user_id family_member_id : Nat) (llm : LLMResult) :
    Except PyErr GenerateOutcome :=
  match verify_family_member_access db user_id family_member_id with
  | none => .ok ⟨[], db, []⟩
  | some _ =>
    match llm with
    | .error _ =>
      let recs := generate_rule_based_recommendations nextId now db family_member_id
      .ok ⟨recs, insertRecommendations db recs, []⟩
    | .success resp => do
      let recs ← parse_and_store_recommendations nextId now family_member_id resp
      .ok ⟨recs, insertRecommendations db recs,
           [genAuditEvent user_id family_member_id resp.model recs.length]⟩

/-- Replace the row with the given id. -/
def updateRecommendationRow (db : DB) (recId : Nat) (r : AIRecommendation) : DB :=
  { db with recommendations := db.recommendations.map (fun x => if x.id == recId then r else x) }

/-- `acknowledge_recommendation` (lines 571-612): load the row, check the
owner, set `is_acknowledged`/`acknowledged_at` unconditionally, overwrite
rating/feedback/followed only when supplied (`is not None`), stamp
`updated_at`, emit one PHI_UPDATE audit event. -/
def acknowledge_recommendation (db : DB) (user_id recommendation_id : Nat)
    (rating : Option Int) (feedback : Option String) (is_followed : Option Bool)
    (now : Nat) : Option AIRecommendation × DB × List AuditEvent :=
  match db.recommendations.find? (fun r => r.id == recommendation_id) with
  | none => (none, db, [])
  | some rec =>
    match verify_family_member_access db user_id rec.family_member_id with
    | none => (none, db, [])
    | some _ =>
      let rec' := { rec with
        is_acknowledged := true
        acknowledged_at := some now
        user_rating := match rating with
                       | some v => some v
                       | none => rec.user_rating
        user_feedback := match feedback with
                         | some v => some v
                         | none => rec.user_feedback
        is_followed := match is_followed with
                       | some v => some v
                       | none => rec.is_followed
        updated_at := now }
      (some rec', updateRecommendationRow db recommendation_id rec',
       [ackAuditEvent user_id recommendation_id])

/-- `dismiss_recommendation` (lines 614-632): load the row, check the owner,
set `is_active := false` and stamp `updated_at`; nothing else changes and no
audit event is emitted. -/
def dismiss_recommendation (db : DB) (user_id recommendation_id : Nat)
    (now : Nat) : Bool × DB :=
  match db.recommendations.find? (fun r => r.id == recommendation_id) with
  | none => (false, db)
  | some rec =>
    match verify_family_member_access db user_id rec.family_member_id with
    | none => (false, db)
    | some _ =>
      let rec' := { rec with is_active := false, updated_at := now }
      (true, updateRecommendationRow db recommendation_id rec')

/-! `chat` (lines 634-674).  The provider helpers
(`_chat_with_medgemma` / `_chat_with_local_llm`) return either
`\x7b"response", "model", "has_image_analysis"\x7d` or `\x7b"error"\x7d`;
the network call is external, so `chat` is parameterised by that returned
dict.  The whole body sits inside `try ... except Exception`, so `chat`
itself is a TOTAL function into the payload type: every failure is data in
the payload, never a raised fault, and no rule-based fallback exists on this
path. -/

/-- The dict a chat provider helper returns. -/
inductive ChatProviderResult where
  | success (response : String) (model : String) (has_image_analysis : Bool)
  | error (msg : String)

/-- The dict `chat` returns to its caller. -/
structure ChatPayload where
  response : Option String
  model : Option String
  has_image_analysis : Option Bool
  error : Option String
deriving DecidableEq

/-- `chat`: ownership failure and provider failure both come back as an
`error` field inside the payload; on the ownership-passing path one
PHI_ACCESS audit event is emitted whose model falls back to "unknown" for
error results (`result.get("model", "unknown")`). -/
def chat (db : DB) (user_id family_member_id : Nat) (has_image : Bool)
    (provider : ChatProviderResult) : ChatPayload × List AuditEvent :=
  match verify_family_member_access db user_id family_member_id with
  | none =>
    ({ response := none, model := none, has_image_analysis := none
       error := some "Family member not found or access denied" }, [])
  | some _ =>
    let result : ChatPayload :=
      match provider with
      | .success r m hia =>
        { response := some r, model := some m, has_image_analysis := some hia
          error := none }
      | .error msg =>
        { response := none, model := none, has_image_analysis := none
          error := some msg }
    (result,
     [chatAuditEvent user_id family_member_id has_image
        (match result.model with
         | some m => m
         | none => "unknown")])

/-! Concrete fixtures used by witnesses and counterexamples. -/

/-- A provider response whose text holds no brace-delimited span. -/
def respNoJson : ModelResponse :=
  { response := "no json here", model := "test-model", confidence := 1 / 2 }

/-- A provider response whose extracted JSON parses but whose
`recommendations` array holds a non-dict item. -/
def respNonDictItem : ModelResponse :=
  { response := "pre \x7b\"recommendations\": [1]\x7d post"
    model := "test-model"
    confidence := 1 / 2 }

/-- The dietary example response of the spec's testable properties. -/
def respDietary : ModelResponse :=
  { response := "\x7b\"recommendations\":[\x7b\"type\":\"dietary\",\"priority\":\"low\",\"title\":\"X\",\"description\":\"Y\"\x7d]\x7d"
    model := "medgemma-vertex-ai"
    confidence := 85 / 100 }

/-- The entity the dietary example stores. -/
def dietaryRecFixture : AIRecommendation :=
  buildRecommendation 1 0 7 (some "medgemma-vertex-ai") (some (85 / 100))
    [("type", Json.str "dietary"), ("priority", Json.str "low"),
     ("title", Json.str "X"), ("description", Json.str "Y")]

/-- A HIGH-status cholesterol lab. -/
def cholHighLab : LabResult :=
  { id := 3, family_member_id := 7, test_name := "Cholesterol"
    status := ResultStatus.HIGH, test_date := 5 }

/-- A LOW-status lab whose name contains both "iron" and "hemoglobin". -/
def ironHemoLowLab : LabResult :=
  { id := 4, family_member_id := 7, test_name := "Iron Hemoglobin Panel"
    status := ResultStatus.LOW, test_date := 6 }

/-- A LOW-status vitamin D lab. -/
def vitDLowLab : LabResult :=
  { id := 5, family_member_id := 7, test_name := "Vitamin D, 25-Hydroxy"
    status := ResultStatus.LOW, test_date := 8 }

/-- The "iron" table entry (index 2). -/
def ironRule : Rule := deficiency_rules.get ⟨2, by decide⟩

/-- The "vitamin d" table entry (index 1). -/
def vitDRule : Rule := deficiency_rules.get ⟨1, by decide⟩

/-- The single entity the iron/hemoglobin lab produces. -/
def ironHemoRecFixture : AIRecommendation :=
  mkRuleRecommendation 1 0 7 ironHemoLowLab ironRule

/-- The entity the vitamin D lab produces on the fallback path. -/
def vitDRecFixture : AIRecommendation :=
  mkRuleRecommendation 1 0 7 vitDLowLab vitDRule

/-- Family member 7 owned by user 1. -/
def member71 : FamilyMember := { id := 7, user_id := 1 }

/-- A database whose only abnormal lab is the HIGH cholesterol lab. -/
def dbCholHigh : DB :=
  { family_members := [member71], lab_results := [cholHighLab], recommendations := [] }

/-- A database with one LOW vitamin D lab, for the fallback path. -/
def dbFallback : DB :=
  { family_members := [member71], lab_results := [vitDLowLab], recommendations := [] }

/-- A stored recommendation in its initial lifecycle state. -/
def baseRecFixture : AIRecommendation :=
  { id := 11
    family_member_id := 7
    recommendation_type := RecommendationType.SUPPLEMENT
    priority := Priority.MEDIUM
    title := Json.str "t"
    description := Json.str "d"
    detailed_explanation := Json.null
    supplement_name := Json.null
    suggested_dosage := Json.null
    frequency := none
    foods_to_include := "[]"
    foods_to_avoid := "[]"
    triggered_by_lab_id := none
    triggered_by_medication_id := none
    model_used := some "m"
    confidence_score := some (3 / 4)
    is_active := true
    is_acknowledged := false
    acknowledged_at := none
    user_rating := none
    user_feedback := none
    is_followed := none
    disclaimer := defaultDisclaimer
    created_at := 0
    updated_at := 0
    expires_at := none }

/-- A database holding `baseRecFixture` for subject 7 owned by user 1. -/
def dbFeedback : DB :=
  { family_members := [member71], lab_results := [], recommendations := [baseRecFixture] }

/-! Helper lemmas shared by the claim theorems. -/

/-- `dict.get` returns the default when the key is absent. -/
theorem pyDictGet_of_not_mem (kvs : List (String × Json)) (k : String) (d : Json)
    (h : ∀ kv ∈ kvs, kv.1 ≠ k) : pyDictGet kvs k d = d := by
  unfold pyDictGet
  have hnone : kvs.reverse.find? (fun kv => kv.1 == k) = none := by
    rw [List.find?_eq_none]
    intro kv hkv
    simp only [List.mem_reverse] at hkv
    simp only [beq_iff_eq]
    exact h kv hkv
  rw [hnone]

/-- `find?` returns the first element satisfying the predicate. -/
theorem find?_first {α : Type} (p : α → Bool) :
    ∀ (xs : List α) (a : α), xs.find? p = some a →
      ∃ k : Nat, xs[k]? = some a ∧ p a = true ∧
        ∀ (j : Nat) (b : α), j < k → xs[j]? = some b → p b = false := by
  intro xs
  induction xs with
  | nil => intro a h; simp [List.find?] at h
  | cons x rest ih =>
    intro a h
    rw [List.find?] at h
    by_cases hx : p x = true
    · rw [hx] at h
      simp only [Option.some.injEq] at h
      subst h
      exact ⟨0, by simp, hx, by intro j b hj; omega⟩
    · have hx' : p x = false := by
        cases hpx : p x
        · rfl
        · exact absurd hpx hx
      rw [hx'] at h
      simp only [cond_false] at h
      obtain ⟨k, hk, hpa, hfirst⟩ := ih a h
      refine ⟨k + 1, by simpa using hk, hpa, ?_⟩
      intro j b hj hjb
      match j with
      | 0 => simp at hjb; rw [← hjb]; exact hx'
      | Nat.succ j' =>
        have : j' < k := by omega
        exact hfirst j' b this (by simpa using hjb)

theorem mem_insertByDateDesc (l x : LabResult) (xs : List LabResult) :
    x ∈ insertByDateDesc l xs ↔ x = l ∨ x ∈ xs := by
  induction xs with
  | nil => simp [insertByDateDesc]
  | cons y ys ih =>
    unfold insertByDateDesc
    by_cases hle : l.test_date ≤ y.test_date
    · simp only [if_pos hle, List.mem_cons, ih]
      tauto
    · simp only [if_neg hle, List.mem_cons]

theorem mem_sortByDateDesc (x : LabResult) (xs : List LabResult) :
    x ∈ sortByDateDesc xs ↔ x ∈ xs := by
  induction xs with
  | nil => simp [sortByDateDesc]
  | cons y ys ih =>
    unfold sortByDateDesc
    rw [mem_insertByDateDesc]
    simp [ih]

theorem ruleMatches_false_of_not_low (lab : LabResult) (r : Rule)
    (h : lab.status ≠ ResultStatus.LOW) : ruleMatches lab r = false := by
  unfold ruleMatches
  have : (lab.status == ResultStatus.LOW) = false := by
    simp only [beq_eq_false_iff_ne, ne_eq]
    exact h
  rw [this, Bool.and_false]

theorem ruleRecommendationForLab_none_of_not_low (newId now fm : Nat)
    (lab : LabResult) (h : lab.status ≠ ResultStatus.LOW) :
    ruleRecommendationForLab newId now fm lab = none := by
  unfold ruleRecommendationForLab
  have : deficiency_rules.find? (ruleMatches lab) = none := by
    rw [List.find?_eq_none]
    intro r _
    rw [ruleMatches_false_of_not_low lab r h]
    simp
  rw [this]
  rfl

theorem ruleRecsForLabs_nil_of_no_low (now fm : Nat) :
    ∀ (labs : List LabResult) (nextId : Nat),
      (∀ l ∈ labs, l.status ≠ ResultStatus.LOW) →
      ruleRecsForLabs nextId now fm labs = [] := by
  intro labs
  induction labs with
  | nil => intro nextId _; rfl
  | cons l rest ih =>
    intro nextId h
    have hnone := ruleRecommendationForLab_none_of_not_low nextId now fm l (h l (by simp))
    unfold ruleRecsForLabs
    rw [hnone]
    exact ih nextId (fun x hx => h x (List.mem_cons_of_mem _ hx))

/-- Replacing the found row by id in a list: a later `find?` by the same id
returns the replacement, provided it keeps the found row's id. -/
theorem find?_replace_by_id (recId : Nat) (r' rec : AIRecommendation)
    (hid : r'.id = rec.id) :
    ∀ (xs : List AIRecommendation),
      xs.find? (fun r => r.id == recId) = some rec →
      (xs.map (fun x => if x.id == recId then r' else x)).find?
        (fun r => r.id == recId) = some r' := by
  intro xs
  induction xs with
  | nil => intro h; simp [List.find?] at h
  | cons x rest ih =>
    intro h
    rw [List.find?] at h
    cases hx : (x.id == recId) with
    | true =>
      rw [hx] at h
      simp only [cond_true, Option.some.injEq] at h
      subst h
      have hr' : (r'.id == recId) = true := by rw [hid]; exact hx
      simp only [List.map_cons, if_pos hx]
      rw [List.find?, hr']
    | false =>
      rw [hx] at h
      simp only [cond_false] at h
      have hnx : ¬ ((x.id == recId) = true) := by simp [hx]
      simp only [List.map_cons, if_neg hnx]
      rw [List.find?, hx]
      simp only [cond_false]
      exact ih h

/-- After `updateRecommendationRow`, `find?` by the id returns the
replacement. -/
theorem find?_updateRecommendationRow (db : DB) (recId : Nat)
    (rec r' : AIRecommendation)
    (hfind : db.recommendations.find? (fun r => r.id == recId) = some rec)
    (hid : r'.id = rec.id) :
    (updateRecommendationRow db recId r').recommendations.find?
      (fun r => r.id == recId) = some r' := by
  unfold updateRecommendationRow
  exact find?_replace_by_id recId r' rec hid db.recommendations hfind

/-- Building a list of dict items never raises and yields one entity per
item. -/
theorem buildItems_ok_of_all_obj (now fm : Nat) (model : Option String)
    (conf : Option Rat) :
    ∀ (items : List Json) (nextId : Nat),
      (∀ i ∈ items, ∃ ks, i = Json.obj ks) →
      ∃ recs, buildItems nextId now fm model conf items = .ok recs ∧
        recs.length = items.length := by
  intro items
  induction items with
  | nil => intro nextId _; exact ⟨[], rfl, rfl⟩
  | cons i rest ih =>
    intro nextId h
    obtain ⟨ks, hks⟩ := h i (by simp)
    obtain ⟨recs, hrecs, hlen⟩ := ih (nextId + 1) (fun x hx => h x (List.mem_cons_of_mem _ hx))
    refine ⟨buildRecommendation nextId now fm model conf ks :: recs, ?_, by simp [hlen]⟩
    subst hks
    unfold buildItems
    rw [hrecs]
    rfl

/-- Each queried lab contributes at most one recommendation. -/
theorem ruleRecsForLabs_length_le (now fm : Nat) :
    ∀ (labs : List LabResult) (nextId : Nat),
      (ruleRecsForLabs nextId now fm labs).length ≤ labs.length := by
  intro labs
  induction labs with
  | nil => intro nextId; simp [ruleRecsForLabs]
  | cons l rest ih =>
    intro nextId
    unfold ruleRecsForLabs
    cases hr : ruleRecommendationForLab nextId now fm l with
    | some r =>
      simp only [List.length_cons]
      exact Nat.succ_le_succ (ih (nextId + 1))
    | none =>
      simp only [List.length_cons]
      exact Nat.le_succ_of_le (ih nextId)

/-- Claim C1: in the rule-based fallback a rule fires only when the lab's
status is exactly LOW.  A lab with any other status (in particular HIGH,
e.g. a "Cholesterol" lab) yields no rule-based recommendation at all, even
though HIGH-status labs pass the fallback's input-query status filter; a
database whose labs are all non-LOW yields zero fallback recommendations. -/
theorem rule_fires_only_on_low_status (newId now fm : Nat) (lab : LabResult)
    (h : lab.status ≠ ResultStatus.LOW) :
    ruleRecommendationForLab newId now fm lab = none ∧
    (lab.status = ResultStatus.HIGH → abnormalStatusFilter lab = true) ∧
    (∀ (db : DB), (∀ l ∈ db.lab_results, l.status ≠ ResultStatus.LOW) →
      generate_rule_based_recommendations newId now db fm = []) := by
  refine ⟨ruleRecommendationForLab_none_of_not_low newId now fm lab h, ?_, ?_⟩
  · intro hh
    unfold abnormalStatusFilter
    rw [hh]
    rfl
  · intro db hdb
    unfold generate_rule_based_recommendations
    apply ruleRecsForLabs_nil_of_no_low
    intro l hl
    unfold abnormalLabsQuery at hl
    rw [mem_sortByDateDesc] at hl
    exact hdb l (List.mem_filter.mp hl).1

theorem rule_fires_only_on_low_status_witness :
    cholHighLab.status ≠ ResultStatus.LOW ∧
    ruleRecommendationForLab 1 0 7 cholHighLab = none ∧
    abnormalStatusFilter cholHighLab = true ∧
    generate_rule_based_recommendations 1 0 dbCholHigh 7 = [] := by
  have h := rule_fires_only_on_low_status 1 0 7 cholHighLab (by decide)
  exact ⟨by decide, h.1, h.2.1 (by decide), h.2.2 dbCholHigh (by decide)⟩

/-- Claim C5: keywords are tested by case-insensitive substring against the
lab's test name in the declared table order (vitamin b12, vitamin d, iron,
hemoglobin, glucose, cholesterol); the first matching rule wins (every
earlier rule in the table fails to match), each lab yields at most one
recommendation, and every emitted recommendation carries
`model_used = "rule_based"`, `confidence_score = 0.9` and
`triggered_by_lab_id` equal to the source lab's id. -/
theorem rule_engine_first_match_fields (newId now fm : Nat) (lab : LabResult)
    (r : AIRecommendation)
    (h : ruleRecommendationForLab newId now fm lab = some r) :
    deficiency_rules.map Rule.keyword =
      ["vitamin b12", "vitamin d", "iron", "hemoglobin", "glucose", "cholesterol"] ∧
    r.model_used = some "rule_based" ∧
    r.confidence_score = some (9 / 10) ∧
    r.triggered_by_lab_id = some lab.id ∧
    (∃ (k : Nat) (rule : Rule), deficiency_rules[k]? = some rule ∧
      ruleMatches lab rule = true ∧
      strContainsSub (pyLower lab.test_name) rule.keyword = true ∧
      lab.status = ResultStatus.LOW ∧
      r = mkRuleRecommendation newId now fm lab rule ∧
      (∀ (j : Nat) (rj : Rule), j < k → deficiency_rules[j]? = some rj →
        ruleMatches lab rj = false)) ∧
    (∀ (labs : List LabResult) (nextId : Nat),
      (ruleRecsForLabs nextId now fm labs).length ≤ labs.length) := by
  unfold ruleRecommendationForLab at h
  rw [Option.map_eq_some'] at h
  obtain ⟨rule, hfind, hmk⟩ := h
  obtain ⟨k, hk, hmatch, hfirst⟩ := find?_first (ruleMatches lab) deficiency_rules rule hfind
  have hparts := hmatch
  unfold ruleMatches at hparts
  rw [Bool.and_eq_true] at hparts
  refine ⟨by decide, ?_, ?_, ?_, ⟨k, rule, hk, hmatch, hparts.1, ?_, hmk.symm,
    fun j rj hj hjr => hfirst j rj hj hjr⟩, ruleRecsForLabs_length_le now fm⟩
  · rw [← hmk]; rfl
  · rw [← hmk]; rfl
  · rw [← hmk]; rfl
  · have := hparts.2
    rwa [beq_iff_eq] at this

theorem rule_engine_first_match_fields_witness :
    ruleRecommendationForLab 1 0 7 ironHemoLowLab = some ironHemoRecFixture ∧
    ironHemoRecFixture.model_used = some "rule_based" ∧
    ironHemoRecFixture.confidence_score = some (9 / 10) ∧
    ironHemoRecFixture.triggered_by_lab_id = some ironHemoLowLab.id ∧
    strContainsSub (pyLower ironHemoLowLab.test_name) "iron" = true ∧
    strContainsSub (pyLower ironHemoLowLab.test_name) "hemoglobin" = true := by
  have hfind : ruleRecommendationForLab 1 0 7 ironHemoLowLab = some ironHemoRecFixture := rfl
  have h := rule_engine_first_match_fields 1 0 7 ironHemoLowLab ironHemoRecFixture hfind
  exact ⟨hfind, h.2.1, h.2.2.1, h.2.2.2.1, by decide, by decide⟩

/-- Claim C3: when the provider returns an error result
(`ProviderUnavailable`), `generate_recommendations` delegates wholly to the
rule engine and returns normally (the caller never observes the provider
failure); when the subject-ownership check fails, it returns an empty list
without raising, with a result that is independent of the provider's answer
(the provider is never consulted). -/
theorem generate_provider_failure_and_access_check (nextId now : Nat) (db : DB)
    (user_id family_member_id : Nat)
    (hacc : (verify_family_member_access db user_id family_member_id).isSome = true) :
    (∀ msg, generate_recommendations nextId now db user_id family_member_id (.error msg)
      = .ok ⟨generate_rule_based_recommendations nextId now db family_member_id,
             insertRecommendations db
               (generate_rule_based_recommendations nextId now db family_member_id), []⟩) ∧
    (∀ (db2 : DB) (uid2 fm2 : Nat),
      verify_family_member_access db2 uid2 fm2 = none →
      ∀ llm, generate_recommendations nextId now db2 uid2 fm2 llm = .ok ⟨[], db2, []⟩) := by
  constructor
  · intro msg
    obtain ⟨m, hm⟩ := Option.isSome_iff_exists.mp hacc
    unfold generate_recommendations
    rw [hm]
  · intro db2 uid2 fm2 hnone llm
    unfold generate_recommendations
    rw [hnone]

theorem generate_provider_failure_and_access_check_witness :
    (verify_family_member_access dbFallback 1 7).isSome = true ∧
    generate_recommendations 1 0 dbFallback 1 7 (.error "Cannot connect")
      = .ok ⟨[vitDRecFixture], insertRecommendations dbFallback [vitDRecFixture], []⟩ ∧
    verify_family_member_access dbFallback 2 7 = none ∧
    generate_recommendations 1 0 dbFallback 2 7 (.error "Cannot connect")
      = .ok ⟨[], dbFallback, []⟩ := by
  have h := generate_provider_failure_and_access_check 1 0 dbFallback 1 7 (by decide)
  refine ⟨by decide, ?_, by decide, h.2 dbFallback 2 7 (by decide) _⟩
  have h1 := h.1 "Cannot connect"
  rw [h1]
  rfl

/-- Claim C2 counterexample: parsing does NOT always return a list without
raising.  On the concrete model text
`pre \x7b"recommendations": [1]\x7d post` the extracted span parses as
JSON, but the non-dict item `1` makes `rec_data.get("type")` raise
`AttributeError`, which the `except json.JSONDecodeError` handler does not
catch. -/
theorem parse_raises_on_non_dict_item :
    parse_and_store_recommendations 1 0 7 respNonDictItem
      = .error (PyErr.attributeError "object has no attribute get") := rfl

/-- Claim C2 amended: whole-document failure yields the empty list without
raising — if the raw text holds no brace-delimited span, or the extracted
span fails to parse as JSON, `_parse_and_store_recommendations` returns `[]`
(all candidate items are discarded together); and when the document's
`recommendations` entry is an array of JSON objects, parsing returns one
stored recommendation per item without raising.  (The unrestricted
"never raises" of the original claim fails on non-dict items, see the
counterexample.) -/
theorem parse_whole_document_failure (nextId now fm : Nat) (resp : ModelResponse) :
    (extractJsonSpan resp.response = none →
      parse_and_store_recommendations nextId now fm resp = .ok []) ∧
    (∀ span, extractJsonSpan resp.response = some span → jsonLoads span = none →
      parse_and_store_recommendations nextId now fm resp = .ok []) ∧
    (∀ span doc items, extractJsonSpan resp.response = some span →
      jsonLoads span = some doc →
      pyAttrGet doc "recommendations" (Json.arr []) = .ok (Json.arr items) →
      (∀ i ∈ items, ∃ ks, i = Json.obj ks) →
      ∃ recs, parse_and_store_recommendations nextId now fm resp = .ok recs ∧
        recs.length = items.length) := by
  refine ⟨?_, ?_, ?_⟩
  · intro h
    unfold parse_and_store_recommendations
    rw [h]
  · intro span h1 h2
    unfold parse_and_store_recommendations
    rw [h1]
    simp only [h2]
  · intro span doc items h1 h2 h3 h4
    obtain ⟨recs, hb, hlen⟩ :=
      buildItems_ok_of_all_obj now fm (some resp.model) (some resp.confidence) items nextId h4
    refine ⟨recs, ?_, hlen⟩
    unfold parse_and_store_recommendations
    rw [h1]
    simp only [h2, bind, Except.bind, h3, pyIterate, hb]

theorem parse_whole_document_failure_witness :
    extractJsonSpan respNoJson.response = none ∧
    parse_and_store_recommendations 1 0 7 respNoJson = .ok [] := by
  have h := (parse_whole_document_failure 1 0 7 respNoJson).1 (by decide)
  exact ⟨by decide, h⟩

/-- Claim C4: for every item of the parsed `recommendations` array, the
stored entity maps `type` to the enum with unrecognized values defaulting to
SUPPLEMENT, `priority` with unrecognized values defaulting to MEDIUM,
`title` defaulting to "Health Recommendation" when the key is absent,
`description` defaulting to the empty string, `reasoning` stored as
`detailed_explanation`, the foods lists defaulting to empty arrays when
absent, and `model_used` / `confidence_score` copied from the call's
ModelResponse rather than from the per-item JSON. -/
theorem parsed_item_field_mapping (newId now fm : Nat) (resp : ModelResponse)
    (kvs : List (String × Json)) :
    ∃ r, buildFromItem newId now fm (some resp.model) (some resp.confidence)
        (Json.obj kvs) = .ok r ∧
      (jsonEqStr (pyDictGet kvs "type" Json.null) "dietary" = true →
        r.recommendation_type = RecommendationType.DIETARY) ∧
      (jsonEqStr (pyDictGet kvs "type" Json.null) "dietary" = false →
        jsonEqStr (pyDictGet kvs "type" Json.null) "lifestyle" = true →
        r.recommendation_type = RecommendationType.LIFESTYLE) ∧
      (jsonEqStr (pyDictGet kvs "type" Json.null) "dietary" = false →
        jsonEqStr (pyDictGet kvs "type" Json.null) "lifestyle" = false →
        r.recommendation_type = RecommendationType.SUPPLEMENT) ∧
      (jsonEqStr (pyDictGet kvs "priority" Json.null) "high" = true →
        r.priority = Priority.HIGH) ∧
      (jsonEqStr (pyDictGet kvs "priority" Json.null) "high" = false →
        jsonEqStr (pyDictGet kvs "priority" Json.null) "low" = true →
        r.priority = Priority.LOW) ∧
      (jsonEqStr (pyDictGet kvs "priority" Json.null) "high" = false →
        jsonEqStr (pyDictGet kvs "priority" Json.null) "low" = false →
        r.priority = Priority.MEDIUM) ∧
      ((∀ kv ∈ kvs, kv.1 ≠ "title") → r.title = Json.str "Health Recommendation") ∧
      ((∀ kv ∈ kvs, kv.1 ≠ "description") → r.description = Json.str "") ∧
      r.detailed_explanation = pyDictGet kvs "reasoning" (Json.str "") ∧
      ((∀ kv ∈ kvs, kv.1 ≠ "foods_to_include") → r.foods_to_include = "[]") ∧
      ((∀ kv ∈ kvs, kv.1 ≠ "foods_to_avoid") → r.foods_to_avoid = "[]") ∧
      r.model_used = some resp.model ∧
      r.confidence_score = some resp.confidence := by
  refine ⟨buildRecommendation newId now fm (some resp.model) (some resp.confidence) kvs,
    rfl, ?_, ?_, ?_, ?_, ?_, ?_, ?_, ?_, rfl, ?_, ?_, rfl, rfl⟩
  · intro h
    unfold buildRecommendation
    simp only [h, if_true]
  · intro h1 h2
    unfold buildRecommendation
    simp only [h1, h2, Bool.false_eq_true, if_false, if_true]
  · intro h1 h2
    unfold buildRecommendation
    simp only [h1, h2, Bool.false_eq_true, if_false]
  · intro h
    unfold buildRecommendation
    simp only [h, if_true]
  · intro h1 h2
    unfold buildRecommendation
    simp only [h1, h2, Bool.false_eq_true, if_false, if_true]
  · intro h1 h2
    unfold buildRecommendation
    simp only [h1, h2, Bool.false_eq_true, if_false]
  · intro h
    have hd := pyDictGet_of_not_mem kvs "title" (Json.str "Health Recommendation") h
    unfold buildRecommendation
    simp only [hd]
  · intro h
    have hd := pyDictGet_of_not_mem kvs "description" (Json.str "") h
    unfold buildRecommendation
    simp only [hd]
  · intro h
    have hd := pyDictGet_of_not_mem kvs "foods_to_include" (Json.arr []) h
    unfold buildRecommendation
    simp only [hd]
    rfl
  · intro h
    have hd := pyDictGet_of_not_mem kvs "foods_to_avoid" (Json.arr []) h
    unfold buildRecommendation
    simp only [hd]
    rfl

theorem parsed_item_field_mapping_witness :
    ∃ r, buildFromItem 1 0 7 (some respDietary.model) (some respDietary.confidence)
        (Json.obj [("type", Json.str "dietary"), ("priority", Json.str "low"),
                   ("title", Json.str "X"), ("description", Json.str "Y")]) = .ok r ∧
      r.recommendation_type = RecommendationType.DIETARY ∧
      r.priority = Priority.LOW ∧
      r.foods_to_include = "[]" ∧ r.foods_to_avoid = "[]" ∧
      r.model_used = some "medgemma-vertex-ai" ∧
      r.confidence_score = some (85 / 100) := by
  obtain ⟨r, hr, hdiet, _, _, _, hlow, _, _, _, _, hinc, havd, hmod, hconf⟩ :=
    parsed_item_field_mapping 1 0 7 respDietary
      [("type", Json.str "dietary"), ("priority", Json.str "low"),
       ("title", Json.str "X"), ("description", Json.str "Y")]
  exact ⟨r, hr, hdiet (by decide), hlow (by decide) (by decide),
    hinc (by decide), havd (by decide), hmod, hconf⟩

/-- Claim C6: `acknowledge` is idempotent — every successful call sets
`is_acknowledged = true` and `acknowledged_at = now`, and each of
rating/feedback/followed is overwritten only when explicitly supplied in
that call, otherwise the previously stored value is retained; in particular
`acknowledge(id, rating=5)` followed by `acknowledge(id, feedback="ok")`
leaves `user_rating = 5` and sets `user_feedback = "ok"`. -/
theorem acknowledge_retains_unsupplied_fields (db : DB) (uid recId : Nat)
    (rec : AIRecommendation)
    (rating : Option Int) (feedback : Option String) (followed : Option Bool)
    (now now2 : Nat)
    (hfind : db.recommendations.find? (fun r => r.id == recId) = some rec)
    (hacc : (verify_family_member_access db uid rec.family_member_id).isSome = true) :
    (∃ r1, acknowledge_recommendation db uid recId rating feedback followed now
        = (some r1, updateRecommendationRow db recId r1, [ackAuditEvent uid recId]) ∧
      r1.is_acknowledged = true ∧ r1.acknowledged_at = some now ∧
      r1.user_rating = (match rating with
                        | some v => some v
                        | none => rec.user_rating) ∧
      r1.user_feedback = (match feedback with
                          | some v => some v
                          | none => rec.user_feedback) ∧
      r1.is_followed = (match followed with
                        | some v => some v
                        | none => rec.is_followed)) ∧
    (∃ r1 db1 r2 db2,
      acknowledge_recommendation db uid recId (some 5) none none now
        = (some r1, db1, [ackAuditEvent uid recId]) ∧
      acknowledge_recommendation db1 uid recId none (some "ok") none now2
        = (some r2, db2, [ackAuditEvent uid recId]) ∧
      r1.user_rating = some 5 ∧
      r2.user_rating = some 5 ∧ r2.user_feedback = some "ok" ∧
      r2.is_acknowledged = true ∧ r2.acknowledged_at = some now2) := by
  obtain ⟨m, hm⟩ := Option.isSome_iff_exists.mp hacc
  constructor
  · refine ⟨{ rec with
        is_acknowledged := true
        acknowledged_at := some now
        user_rating := match rating with
                       | some v => some v
                       | none => rec.user_rating
        user_feedback := match feedback with
                         | some v => some v
                         | none => rec.user_feedback
        is_followed := match followed with
                       | some v => some v
                       | none => rec.is_followed
        updated_at := now }, ?_, rfl, rfl, rfl, rfl, rfl⟩
    unfold acknowledge_recommendation
    rw [hfind]
    simp only [hm]
    try rfl
  · have hr1 : ∃ r1, r1 = ({ rec with
        is_acknowledged := true
        acknowledged_at := some now
        user_rating := some 5
        updated_at := now } : AIRecommendation) := ⟨_, rfl⟩
    obtain ⟨r1, hr1⟩ := hr1
    have hcall1 : acknowledge_recommendation db uid recId (some 5) none none now
        = (some r1, updateRecommendationRow db recId r1, [ackAuditEvent uid recId]) := by
      unfold acknowledge_recommendation
      rw [hfind]
      simp only [hm]
      rw [hr1]
    have hfind1 : (updateRecommendationRow db recId r1).recommendations.find?
        (fun r => r.id == recId) = some r1 :=
      find?_updateRecommendationRow db recId rec r1 hfind (by rw [hr1])
    have hm1 : verify_family_member_access (updateRecommendationRow db recId r1)
        uid r1.family_member_id = some m := by
      rw [hr1]
      exact hm
    have hr2 : ∃ r2, r2 = ({ r1 with
        is_acknowledged := true
        acknowledged_at := some now2
        user_feedback := some "ok"
        updated_at := now2 } : AIRecommendation) := ⟨_, rfl⟩
    obtain ⟨r2, hr2⟩ := hr2
    have hcall2 : acknowledge_recommendation (updateRecommendationRow db recId r1)
        uid recId none (some "ok") none now2
        = (some r2, updateRecommendationRow (updateRecommendationRow db recId r1) recId r2,
           [ackAuditEvent uid recId]) := by
      unfold acknowledge_recommendation
      rw [hfind1]
      simp only [hm1]
      rw [hr2]
    refine ⟨r1, _, r2, _, hcall1, hcall2, by rw [hr1], ?_, by rw [hr2], by rw [hr2],
      by rw [hr2]⟩
    rw [hr2, hr1]

theorem acknowledge_retains_unsupplied_fields_witness :
    dbFeedback.recommendations.find? (fun r => r.id == 11) = some baseRecFixture ∧
    (verify_family_member_access dbFeedback 1 baseRecFixture.family_member_id).isSome = true ∧
    (∃ r1 db1 r2 db2,
      acknowledge_recommendation dbFeedback 1 11 (some 5) none none 1
        = (some r1, db1, [ackAuditEvent 1 11]) ∧
      acknowledge_recommendation db1 1 11 none (some "ok") none 2
        = (some r2, db2, [ackAuditEvent 1 11]) ∧
      r1.user_rating = some 5 ∧
      r2.user_rating = some 5 ∧ r2.user_feedback = some "ok" ∧
      r2.is_acknowledged = true ∧ r2.acknowledged_at = some 2) := by
  have h := acknowledge_retains_unsupplied_fields dbFeedback 1 11 baseRecFixture
    none none none 1 2 rfl (by decide)
  exact ⟨rfl, by decide, h.2⟩

/-- Claim C7: `dismiss` sets `is_active = false` only — after a successful
dismiss, `is_acknowledged`, `acknowledged_at`, `user_rating`,
`user_feedback`, `is_followed` and every content field of the stored row are
unchanged from their prior values. -/
theorem dismiss_sets_inactive_only (db : DB) (uid recId now : Nat)
    (rec : AIRecommendation)
    (hfind : db.recommendations.find? (fun r => r.id == recId) = some rec)
    (hacc : (verify_family_member_access db uid rec.family_member_id).isSome = true) :
    dismiss_recommendation db uid recId now
      = (true, updateRecommendationRow db recId
          { rec with is_active := false, updated_at := now }) ∧
    (updateRecommendationRow db recId
        { rec with is_active := false, updated_at := now }).recommendations.find?
      (fun r => r.id == recId)
      = some { rec with is_active := false, updated_at := now } ∧
    ({ rec with is_active := false, updated_at := now } : AIRecommendation).is_active = false ∧
    ({ rec with is_active := false, updated_at := now } : AIRecommendation).is_acknowledged
      = rec.is_acknowledged ∧
    ({ rec with is_active := false, updated_at := now } : AIRecommendation).acknowledged_at
      = rec.acknowledged_at ∧
    ({ rec with is_active := false, updated_at := now } : AIRecommendation).user_rating
      = rec.user_rating ∧
    ({ rec with is_active := false, updated_at := now } : AIRecommendation).user_feedback
      = rec.user_feedback ∧
    ({ rec with is_active := false, updated_at := now } : AIRecommendation).is_followed
      = rec.is_followed ∧
    ({ rec with is_active := false, updated_at := now } : AIRecommendation).recommendation_type
      = rec.recommendation_type ∧
    ({ rec with is_active := false, updated_at := now } : AIRecommendation).priority
      = rec.priority ∧
    ({ rec with is_active := false, updated_at := now } : AIRecommendation).title = rec.title ∧
    ({ rec with is_active := false, updated_at := now } : AIRecommendation).description
      = rec.description ∧
    ({ rec with is_active := false, updated_at := now } : AIRecommendation).detailed_explanation
      = rec.detailed_explanation ∧
    ({ rec with is_active := false, updated_at := now } : AIRecommendation).supplement_name
      = rec.supplement_name ∧
    ({ rec with is_active := false, updated_at := now } : AIRecommendation).suggested_dosage
      = rec.suggested_dosage ∧
    ({ rec with is_active := false, updated_at := now } : AIRecommendation).foods_to_include
      = rec.foods_to_include ∧
    ({ rec with is_active := false, updated_at := now } : AIRecommendation).foods_to_avoid
      = rec.foods_to_avoid ∧
    ({ rec with is_active := false, updated_at := now } : AIRecommendation).triggered_by_lab_id
      = rec.triggered_by_lab_id ∧
    ({ rec with is_active := false, updated_at := now } : AIRecommendation).model_used
      = rec.model_used ∧
    ({ rec with is_active := false, updated_at := now } : AIRecommendation).confidence_score
      = rec.confidence_score ∧
    ({ rec with is_active := false, updated_at := now } : AIRecommendation).disclaimer
      = rec.disclaimer := by
  obtain ⟨m, hm⟩ := Option.isSome_iff_exists.mp hacc
  refine ⟨?_, ?_, rfl, rfl, rfl, rfl, rfl, rfl, rfl, rfl, rfl, rfl, rfl, rfl, rfl, rfl,
    rfl, rfl, rfl, rfl, rfl⟩
  · unfold dismiss_recommendation
    rw [hfind]
    simp only [hm]
  · exact find?_updateRecommendationRow db recId rec _ hfind rfl

theorem dismiss_sets_inactive_only_witness :
    dbFeedback.recommendations.find? (fun r => r.id == 11) = some baseRecFixture ∧
    (verify_family_member_access dbFeedback 1 baseRecFixture.family_member_id).isSome = true ∧
    dismiss_recommendation dbFeedback 1 11 3
      = (true, updateRecommendationRow dbFeedback 11
          { baseRecFixture with is_active := false, updated_at := 3 }) ∧
    ({ baseRecFixture with is_active := false, updated_at := 3 } : AIRecommendation).is_acknowledged
      = baseRecFixture.is_acknowledged ∧
    ({ baseRecFixture with is_active := false, updated_at := 3 } : AIRecommendation).user_rating
      = baseRecFixture.user_rating := by
  have h := dismiss_sets_inactive_only dbFeedback 1 11 3 baseRecFixture rfl (by decide)
  exact ⟨rfl, by decide, h.1, h.2.2.2.1, h.2.2.2.2.2.1⟩

/-- Claim C10: when the recommendation exists but its family member does
not belong to the calling user, `acknowledge` returns None and `dismiss`
returns false, and the database is left untouched — the ownership check runs
before any mutation. -/
theorem feedback_ops_access_denied (db : DB) (uid recId now : Nat)
    (rating : Option Int) (feedback : Option String) (followed : Option Bool)
    (rec : AIRecommendation)
    (hfind : db.recommendations.find? (fun r => r.id == recId) = some rec)
    (hacc : verify_family_member_access db uid rec.family_member_id = none) :
    acknowledge_recommendation db uid recId rating feedback followed now = (none, db, []) ∧
    dismiss_recommendation db uid recId now = (false, db) := by
  constructor
  · unfold acknowledge_recommendation
    rw [hfind]
    simp only [hacc]
  · unfold dismiss_recommendation
    rw [hfind]
    simp only [hacc]

theorem feedback_ops_access_denied_witness :
    dbFeedback.recommendations.find? (fun r => r.id == 11) = some baseRecFixture ∧
    verify_family_member_access dbFeedback 2 baseRecFixture.family_member_id = none ∧
    acknowledge_recommendation dbFeedback 2 11 (some 4) (some "hi") (some true) 9
      = (none, dbFeedback, []) ∧
    dismiss_recommendation dbFeedback 2 11 9 = (false, dbFeedback) := by
  have h := feedback_ops_access_denied dbFeedback 2 11 9
    (some 4) (some "hi") (some true) baseRecFixture rfl (by decide)
  exact ⟨rfl, by decide, h.1, h.2⟩

/-- Claim C8: `chat` never raises — the service body is wrapped in a
catch-all handler, so in this embedding `chat` is a total function into the
payload type; a provider failure (and likewise an ownership failure) comes
back as an `error` field inside the normal response payload, and no
rule-based fallback runs for chat: the result on a provider error is
independent of the stored labs and recommendations. -/
theorem chat_surfaces_errors_as_payload (db : DB) (uid fm : Nat) (hasImage : Bool) :
    ((verify_family_member_access db uid fm).isSome = true →
      ∀ msg, chat db uid fm hasImage (.error msg)
        = ({ response := none, model := none, has_image_analysis := none,
             error := some msg },
           [chatAuditEvent uid fm hasImage "unknown"])) ∧
    (verify_family_member_access db uid fm = none →
      ∀ prov, chat db uid fm hasImage prov
        = ({ response := none, model := none, has_image_analysis := none,
             error := some "Family member not found or access denied" }, [])) ∧
    (∀ msg (labs2 : List LabResult) (recs2 : List AIRecommendation),
      chat { db with lab_results := labs2, recommendations := recs2 } uid fm hasImage
          (.error msg)
        = chat db uid fm hasImage (.error msg)) := by
  refine ⟨?_, ?_, ?_⟩
  · intro hacc msg
    obtain ⟨m, hm⟩ := Option.isSome_iff_exists.mp hacc
    unfold chat
    rw [hm]
  · intro hnone prov
    unfold chat
    rw [hnone]
  · intro msg labs2 recs2
    rfl

theorem chat_surfaces_errors_as_payload_witness :
    (verify_family_member_access dbFallback 1 7).isSome = true ∧
    chat dbFallback 1 7 false (.error "Cannot connect to local LLM")
      = ({ response := none, model := none, has_image_analysis := none,
           error := some "Cannot connect to local LLM" },
         [chatAuditEvent 1 7 false "unknown"]) ∧
    verify_family_member_access dbFallback 2 7 = none ∧
    chat dbFallback 2 7 true (.success "hello" "local-model" true)
      = ({ response := none, model := none, has_image_analysis := none,
           error := some "Family member not found or access denied" }, []) := by
  have h := chat_surfaces_errors_as_payload dbFallback 1 7 false
  have h2 := chat_surfaces_errors_as_payload dbFallback 2 7 true
  exact ⟨by decide, h.1 (by decide) "Cannot connect to local LLM", by decide,
    h2.2.1 (by decide) (.success "hello" "local-model" true)⟩

/-- Claim C9 counterexample: a `generate` call that passes the subject
check but takes the rule-based fallback path emits NO audit event — on a
concrete database with an owned member and a LOW vitamin D lab,
`generate_recommendations` with a provider error produces one
recommendation and an empty audit-event list, contradicting "exactly one
audit event ... on both paths". -/
theorem generate_fallback_emits_no_audit :
    (verify_family_member_access dbFallback 1 7).isSome = true ∧
    generate_recommendations 1 0 dbFallback 1 7 (.error "Cannot connect to local LLM")
      = .ok ⟨[vitDRecFixture], insertRecommendations dbFallback [vitDRecFixture], []⟩ := by
  exact ⟨by decide, rfl⟩

/-- Claim C9 amended: a `generate` call that passes the subject check
emits exactly one audit event — summarizing the produced count and the
model used, after the resulting entities are persisted — on the LLM-success
path only; the rule-based fallback path persists its entities but emits no
audit event. -/
theorem generate_audit_events_per_path (nextId now : Nat) (db : DB) (uid fm : Nat)
    (hacc : (verify_family_member_access db uid fm).isSome = true) :
    (∀ (resp : ModelResponse) (recs : List AIRecommendation),
      parse_and_store_recommendations nextId now fm resp = .ok recs →
      generate_recommendations nextId now db uid fm (.success resp)
        = .ok ⟨recs, insertRecommendations db recs,
               [genAuditEvent uid fm resp.model recs.length]⟩) ∧
    (∀ msg, generate_recommendations nextId now db uid fm (.error msg)
      = .ok ⟨generate_rule_based_recommendations nextId now db fm,
             insertRecommendations db (generate_rule_based_recommendations nextId now db fm),
             []⟩) := by
  obtain ⟨m, hm⟩ := Option.isSome_iff_exists.mp hacc
  constructor
  · intro resp recs hp
    unfold generate_recommendations
    rw [hm]
    simp only [bind, Except.bind, hp]
  · intro msg
    unfold generate_recommendations
    rw [hm]

theorem generate_audit_events_per_path_witness :
    (verify_family_member_access dbFallback 1 7).isSome = true ∧
    parse_and_store_recommendations 1 0 7 respDietary = .ok [dietaryRecFixture] ∧
    generate_recommendations 1 0 dbFallback 1 7 (.success respDietary)
      = .ok ⟨[dietaryRecFixture], insertRecommendations dbFallback [dietaryRecFixture],
             [genAuditEvent 1 7 "medgemma-vertex-ai" 1]⟩ := by
  have hp : parse_and_store_recommendations 1 0 7 respDietary = .ok [dietaryRecFixture] := rfl
  have h := (generate_audit_events_per_path 1 0 dbFallback 1 7 (by decide)).1
    respDietary [dietaryRecFixture] hp
  refine ⟨by decide, hp, ?_⟩
  rw [h]
  rfl

end MedAssist
